import Mathlib

/-!
Shallow embedding of the HRMS backend (src/main.py, src/schemas.py).

The document store is modelled as in-memory lists of records, one list per
collection, mirroring the Mongo collections `useraccount`, `department`,
`employee`, `leaverequest`, `notification`.  Store-generated identifiers and
timestamps are supplied explicitly as handler arguments.  `find_one` is the
first match in list order, `update_one` / `delete_one` act on the first match,
and insertion appends.  Handlers raise `HTTPException(status, detail)` only
before their first write, so a handler is modelled as a function returning
`Except Http (new state × output)`; an error means the state is unchanged.
Identifier parsing (`to_object_id`, which raises 400 on a malformed ObjectId
string) is at the HTTP boundary and identifiers are treated as opaque strings.
Python truthiness of an optional string field (`if x.get("f"):`) is modelled by
`truthyOpt`: a value is truthy when present and non-empty.
-/

namespace HRMS

abbrev DocId := String

/-- HTTPException payload: status code and detail string. -/
structure Http where
  status : Nat
  detail : String
deriving Repr, DecidableEq

/-- UserAccount document (schemas.py). -/
structure UserAccount where
  id : DocId
  email : String
  full_name : String
  role : String
  hashed_password : String
  is_active : Bool
deriving Repr, DecidableEq

/-- Department document (schemas.py). -/
structure Department where
  id : DocId
  name : String
  description : Option String
  manager_id : Option String
deriving Repr, DecidableEq

/-- Employee document (schemas.py, restricted to the fields main.py reads and writes). -/
structure Employee where
  id : DocId
  user_id : DocId
  joining_date : Option String
  department_id : Option String
  designation : Option String
  manager_user_id : Option String
deriving Repr, DecidableEq

/-- LeaveRequest document (schemas.py).  `updated_at` is set only by the action handler. -/
structure LeaveRequest where
  id : DocId
  employee_user_id : DocId
  manager_user_id : Option String
  start_date : String
  end_date : String
  type : String
  reason : Option String
  status : String
  manager_comment : Option String
  updated_at : Option Nat
deriving Repr, DecidableEq

/-- Notification document (schemas.py).  `created_at` is store-assigned on insertion. -/
structure Notification where
  id : DocId
  user_id : Option DocId
  audience : Option String
  title : String
  message : String
  entity_type : Option String
  entity_id : Option DocId
  created_at : Nat
deriving Repr, DecidableEq

/-- The document store: one list per collection, in insertion order. -/
structure DB where
  useraccount : List UserAccount
  department : List Department
  employee : List Employee
  leaverequest : List LeaveRequest
  notification : List Notification
deriving Repr, DecidableEq

/-- Python truthiness of an optional string field: present and non-empty. -/
def truthyOpt : Option String → Bool
  | none => false
  | some s => s != ""

/-- Mongo update_one: apply `f` to the first element satisfying `p`. -/
def updateFirst (p : α → Bool) (f : α → α) : List α → List α
  | [] => []
  | x :: xs => if p x then f x :: xs else x :: updateFirst p f xs

/-- Modelled from the spec: `create_document` lives in database.py, which is not
included under src/.  Per spec section 4.4 it appends the record to the collection
with a store-assigned identifier (and, for notifications, a store-assigned creation
timestamp); in this embedding the caller supplies the fresh identifier and the
timestamp explicitly and insertion is a list append returning the new collection. -/
def create_document (l : List α) (a : α) : List α := l ++ [a]

/-- Modelled from the spec: `get_documents` lives in database.py, which is not
included under src/; it returns all documents of a collection. -/
def get_documents (l : List α) : List α := l

/-- HTTP status of a handler outcome: 200 on success, the raised status otherwise. -/
def statusOf : Except Http α → Nat
  | Except.ok _ => 200
  | Except.error e => e.status

/-- Whether a handler outcome is a success. -/
def isOk : Except Http α → Bool
  | Except.ok _ => true
  | Except.error _ => false

/-- Payload of POST /auth/login. -/
structure LoginRequest where
  email : String
  password : String
deriving Repr, DecidableEq

/-- Response of POST /auth/login. -/
structure LoginResponse where
  token : String
  role : String
  full_name : String
  user_id : String
deriving Repr, DecidableEq

/-- get_current_user (main.py lines 44-53): no credential means guest (`none`);
a presented credential that resolves to no account raises 401. -/
def get_current_user (db : DB) (credentials : Option String) : Except Http (Option UserAccount) :=
  match credentials with
  | none => Except.ok none
  | some tok =>
    match db.useraccount.find? (fun u => u.id == tok) with
    | none => Except.error ⟨401, "Invalid token"⟩
    | some u => Except.ok (some u)

/-- login (main.py lines 82-90): find the account by email; 401 when absent, when the
stored password is falsy (empty), or when the supplied password differs; otherwise
return token = account id together with role, full name and user id. -/
def login (db : DB) (payload : LoginRequest) : Except Http LoginResponse :=
  match db.useraccount.find? (fun u => u.email == payload.email) with
  | none => Except.error ⟨401, "Invalid credentials"⟩
  | some user =>
    if user.hashed_password == "" then Except.error ⟨401, "Invalid credentials"⟩
    else if payload.password != user.hashed_password then Except.error ⟨401, "Invalid credentials"⟩
    else Except.ok ⟨user.id, user.role, user.full_name, user.id⟩

/-- Payload of POST /seed/user. -/
structure SeedUser where
  email : String
  full_name : String
  role : String
  password : String
deriving Repr, DecidableEq

/-- seed_user (main.py lines 100-112): if the email exists return the existing id,
else create the account (is_active true, stored password = supplied password). -/
def seed_user (db : DB) (u : SeedUser) (newId : DocId) : DB × String × DocId :=
  match db.useraccount.find? (fun a => a.email == u.email) with
  | some existing => (db, "exists", existing.id)
  | none =>
    ({ db with useraccount :=
        create_document db.useraccount ⟨newId, u.email, u.full_name, u.role, u.password, true⟩ },
     "created", newId)

/-- Payload of POST /departments. -/
structure DepartmentCreate where
  name : String
  description : Option String
  manager_id : Option String
deriving Repr, DecidableEq

/-- create_department (main.py lines 121-126): a single check raises 403 both when
no caller resolved and when the role is not HR. -/
def create_department (db : DB) (dep : DepartmentCreate) (user : Option UserAccount)
    (depId : DocId) : Except Http (DB × DocId) :=
  match user with
  | none => Except.error ⟨403, "HR only"⟩
  | some u =>
    if u.role != "HR" then Except.error ⟨403, "HR only"⟩
    else Except.ok
      ({ db with department :=
          create_document db.department ⟨depId, dep.name, dep.description, dep.manager_id⟩ },
       depId)

/-- list_departments (main.py lines 128-133): no caller check at all; guests are served. -/
def list_departments (db : DB) (_user : Option UserAccount) : Except Http (List Department) :=
  Except.ok (get_documents db.department)

/-- Payload of POST /employees. -/
structure EmployeeCreate where
  email : String
  full_name : String
  password : String
  joining_date : Option String
  department_id : Option String
  designation : Option String
  manager_user_id : Option String
deriving Repr, DecidableEq

/-- create_employee (main.py lines 146-169): HR only (403 also for guests); 400 when
the email already exists (checked before any write); otherwise create one UserAccount
(role Employee, is_active true) and one Employee linked by user_id. -/
def create_employee (db : DB) (payload : EmployeeCreate) (user : Option UserAccount)
    (uidNew eidNew : DocId) : Except Http (DB × DocId × DocId) :=
  match user with
  | none => Except.error ⟨403, "HR only"⟩
  | some u =>
    if u.role != "HR" then Except.error ⟨403, "HR only"⟩
    else match db.useraccount.find? (fun a => a.email == payload.email) with
    | some _ => Except.error ⟨400, "Email already exists"⟩
    | none =>
      Except.ok
        ({ db with
            useraccount := create_document db.useraccount
              ⟨uidNew, payload.email, payload.full_name, "Employee", payload.password, true⟩,
            employee := create_document db.employee
              ⟨eidNew, uidNew, payload.joining_date, payload.department_id,
               payload.designation, payload.manager_user_id⟩ },
         uidNew, eidNew)

/-- Payload of PUT /employees/user_id: all fields optional. -/
structure EmployeeUpdate where
  full_name : Option String
  department_id : Option String
  designation : Option String
  manager_user_id : Option String
deriving Repr, DecidableEq

/-- update_employee (main.py lines 177-186): HR or Manager (403 also for guests);
the non-null fields form the update; `full_name` is redirected to the UserAccount
record (matched by id) and the remaining non-null fields are set on the Employee
record (matched by user_id); absent fields are untouched. -/
def update_employee (db : DB) (user_id : DocId) (payload : EmployeeUpdate)
    (user : Option UserAccount) : Except Http DB :=
  match user with
  | none => Except.error ⟨403, "Forbidden"⟩
  | some u =>
    if !(u.role == "HR" || u.role == "Manager") then Except.error ⟨403, "Forbidden"⟩
    else
      let db1 :=
        match payload.full_name with
        | some fn =>
          { db with
            useraccount :=
              updateFirst (fun a => a.id == user_id) (fun a => { a with full_name := fn })
                db.useraccount }
        | none => db
      let hasRest := payload.department_id.isSome || payload.designation.isSome ||
        payload.manager_user_id.isSome
      let db2 :=
        if hasRest then
          { db1 with
            employee :=
              updateFirst (fun e => e.user_id == user_id)
                (fun e =>
                  { e with
                    department_id :=
                      match payload.department_id with
                      | some d => some d
                      | none => e.department_id,
                    designation :=
                      match payload.designation with
                      | some d => some d
                      | none => e.designation,
                    manager_user_id :=
                      match payload.manager_user_id with
                      | some m => some m
                      | none => e.manager_user_id })
                db1.employee }
        else db1
      Except.ok db2

/-- delete_employee (main.py lines 188-194): HR only (403 also for guests); deletes
the first Employee with that user_id and the first UserAccount with that id. -/
def delete_employee (db : DB) (user_id : DocId) (user : Option UserAccount) :
    Except Http DB :=
  match user with
  | none => Except.error ⟨403, "HR only"⟩
  | some u =>
    if u.role != "HR" then Except.error ⟨403, "HR only"⟩
    else Except.ok
      { db with
          employee := db.employee.eraseP (fun e => e.user_id == user_id),
          useraccount := db.useraccount.eraseP (fun a => a.id == user_id) }

/-- One row of the GET /employees response. -/
structure EmployeeListItem where
  user_id : DocId
  full_name : Option String
  email : Option String
  department_id : Option String
  designation : Option String
  manager_user_id : Option String
deriving Repr, DecidableEq

/-- list_employees (main.py lines 196-213): HR or Manager (403 also for guests);
joins each employee with its user account. -/
def list_employees (db : DB) (user : Option UserAccount) :
    Except Http (List EmployeeListItem) :=
  match user with
  | none => Except.error ⟨403, "Forbidden"⟩
  | some u =>
    if !(u.role == "HR" || u.role == "Manager") then Except.error ⟨403, "Forbidden"⟩
    else Except.ok (db.employee.map (fun emp =>
      match db.useraccount.find? (fun a => a.id == emp.user_id) with
      | some acc =>
        ⟨emp.user_id, some acc.full_name, some acc.email, emp.department_id,
         emp.designation, emp.manager_user_id⟩
      | none =>
        ⟨emp.user_id, none, none, emp.department_id, emp.designation,
         emp.manager_user_id⟩))

/-- Payload of POST /leaves. -/
structure LeaveCreate where
  start_date : String
  end_date : String
  type : String
  reason : Option String
deriving Repr, DecidableEq

/-- Manager resolution in submit_leave (main.py lines 236-243): prefer the employee
profile manager_user_id when truthy; else, when department_id is truthy, the
department record's manager_id; else null.  No employee profile resolves to null. -/
def resolveManager (db : DB) (uid : DocId) : Option String :=
  match db.employee.find? (fun e => e.user_id == uid) with
  | none => none
  | some emp =>
    if truthyOpt emp.manager_user_id then emp.manager_user_id
    else if truthyOpt emp.department_id then
      match emp.department_id with
      | some did =>
        match db.department.find? (fun d => d.id == did) with
        | some dep => dep.manager_id
        | none => none
      | none => none
    else none

/-- submit_leave (main.py lines 232-257): roles Employee, Manager, HR (401 also for
guests); persists a Pending request with the resolved manager; then one broadcast
Notification to audience HR; then a direct Notification to the manager when one was
resolved (truthy). -/
def submit_leave (db : DB) (payload : LeaveCreate) (user : Option UserAccount)
    (lrId nHR nMgr : DocId) (now : Nat) : Except Http (DB × DocId) :=
  match user with
  | none => Except.error ⟨401, "Unauthorized"⟩
  | some u =>
    if !(u.role == "Employee" || u.role == "Manager" || u.role == "HR") then
      Except.error ⟨401, "Unauthorized"⟩
    else
      let manager := resolveManager db u.id
      let lr : LeaveRequest :=
        ⟨lrId, u.id, manager, payload.start_date, payload.end_date, payload.type,
         payload.reason, "Pending", none, none⟩
      let hrNote : Notification :=
        ⟨nHR, none, some "HR", "New Leave Request", u.full_name ++ " submitted a leave.",
         some "LeaveRequest", some lrId, now⟩
      let db1 := { db with leaverequest := create_document db.leaverequest lr }
      let db2 := { db1 with notification := create_document db1.notification hrNote }
      let db3 :=
        if truthyOpt manager then
          { db2 with
            notification :=
              create_document db2.notification
                ⟨nMgr, manager, none, "Approval Needed", "Leave request pending approval.",
                 some "LeaveRequest", some lrId, now⟩ }
        else db2
      Except.ok (db3, lrId)

/-- Payload of POST /leaves/leave_id/action. -/
structure LeaveAction where
  action : String
  comment : Option String
deriving Repr, DecidableEq

/-- act_on_leave (main.py lines 263-275): Manager or HR (403 also for guests); 404
when the leave id is absent; otherwise set status (Approve maps to Approved, anything
else to Rejected), manager_comment and updated_at on the record in one write, then
append a Notification to the submitter (comment or empty string as message) and a
broadcast Notification to HR.  The current status is never checked. -/
def act_on_leave (db : DB) (leave_id : DocId) (payload : LeaveAction)
    (user : Option UserAccount) (nEmp nHR : DocId) (now : Nat) : Except Http DB :=
  match user with
  | none => Except.error ⟨403, "Forbidden"⟩
  | some u =>
    if !(u.role == "Manager" || u.role == "HR") then Except.error ⟨403, "Forbidden"⟩
    else match db.leaverequest.find? (fun r => r.id == leave_id) with
    | none => Except.error ⟨404, "Leave not found"⟩
    | some lr =>
      let status := if payload.action == "Approve" then "Approved" else "Rejected"
      let msg :=
        match payload.comment with
        | some c => if c == "" then "" else c
        | none => ""
      let db1 :=
        { db with
          leaverequest :=
            updateFirst (fun r => r.id == leave_id)
              (fun r => { r with status := status, manager_comment := payload.comment,
                                 updated_at := some now })
              db.leaverequest }
      let db2 :=
        { db1 with
          notification :=
            create_document db1.notification
              ⟨nEmp, some lr.employee_user_id, none, "Leave " ++ status, msg,
               some "LeaveRequest", some leave_id, now⟩ }
      let db3 :=
        { db2 with
          notification :=
            create_document db2.notification
              ⟨nHR, none, some "HR", "Leave " ++ status, "A leave was " ++ status.toLower ++ ".",
               some "LeaveRequest", some leave_id, now⟩ }
      Except.ok db3

/-- list_leaves (main.py lines 277-291): 401 for guests; Employee sees own requests,
Manager sees requests where they are the resolved manager, any other role sees all;
the status filter applies only when the parameter is truthy (present and non-empty). -/
def list_leaves (db : DB) (status : Option String) (user : Option UserAccount) :
    Except Http (List LeaveRequest) :=
  match user with
  | none => Except.error ⟨401, "Unauthorized"⟩
  | some u =>
    let roleOk : LeaveRequest → Bool :=
      if u.role == "Employee" then fun r => r.employee_user_id == u.id
      else if u.role == "Manager" then fun r => r.manager_user_id == some u.id
      else fun _ => true
    let stOk : LeaveRequest → Bool :=
      match status with
      | some s => if s != "" then fun r => r.status == s else fun _ => true
      | none => fun _ => true
    Except.ok (db.leaverequest.filter (fun r => roleOk r && stOk r))

/-- Newest-first order on notifications: `a` is at least as recent as `b`. -/
def ntfNewer (a b : Notification) : Prop := b.created_at ≤ a.created_at

instance : DecidableRel ntfNewer :=
  fun a b => inferInstanceAs (Decidable (b.created_at ≤ a.created_at))

instance : IsTotal Notification ntfNewer :=
  ⟨fun a b => Nat.le_total b.created_at a.created_at⟩

instance : IsTrans Notification ntfNewer :=
  ⟨fun _ _ _ hab hbc => Nat.le_trans hbc hab⟩

/-- The Mongo $or filter of my_notifications: direct recipient is the caller, or
(when the role is truthy) the audience equals the role. -/
def matchesCaller (u : UserAccount) (n : Notification) : Bool :=
  n.user_id == some u.id || (u.role != "" && n.audience == some u.role)

/-- my_notifications (main.py lines 295-306): 401 for guests; the matching records
sorted by created_at descending, capped at 50. -/
def my_notifications (db : DB) (user : Option UserAccount) :
    Except Http (List Notification) :=
  match user with
  | none => Except.error ⟨401, "Unauthorized"⟩
  | some u =>
    Except.ok (((db.notification.filter (matchesCaller u)).insertionSort ntfNewer).take 50)

/-! Concrete records and states used by witnesses and counterexamples. -/

def emptyDB : DB := ⟨[], [], [], [], []⟩

def hrX : UserAccount := ⟨"h1", "hr@x.com", "H", "HR", "pw1", true⟩

def empX : UserAccount := ⟨"e1", "e@x.com", "E", "Employee", "pw2", true⟩

def mgrX : UserAccount := ⟨"m1", "m@x.com", "M", "Manager", "pw3", true⟩

def lrC3 : LeaveRequest :=
  ⟨"l1", "e1", none, "2024-01-01", "2024-01-02", "Sick", none, "Pending", none, none⟩

def dbC3 : DB := ⟨[hrX], [], [], [lrC3], []⟩

def dbC4 : DB := ⟨[mgrX], [], [⟨"emp1", "m1", none, none, some "Dev", none⟩], [], []⟩

def dbC7seed : DB := (seed_user emptyDB ⟨"a@x.com", "A", "Employee", ""⟩ "id1").1

def dbC8 : DB := ⟨[hrX, empX], [], [], [], []⟩

def uaC10 : UserAccount := ⟨"i1", "i@x.com", "I", "Employee", "", false⟩

def dbC10 : DB := ⟨[uaC10], [], [], [], []⟩

def uaC10b : UserAccount := ⟨"j1", "j@x.com", "J", "Manager", "pw", false⟩

def dbC10b : DB := ⟨[uaC10b], [], [], [], []⟩

def empC6 : Employee := ⟨"emp1", "e1", some "2024-01-01", some "d1", some "Dev", some "m1"⟩

def dbC6 : DB := ⟨[hrX, empX], [⟨"d1", "Eng", none, none⟩], [empC6], [], []⟩

def dbW1 : DB := ⟨[empX, mgrX], [], [⟨"emp1", "e1", none, none, none, some "m1"⟩], [], []⟩

def lrW2 : LeaveRequest :=
  ⟨"lr1", "e1", some "m1", "2024-01-01", "2024-01-03", "Sick", none, "Approved",
   some "ok", some 5⟩

def dbW2 : DB := ⟨[empX, mgrX], [], [], [lrW2], []⟩

def ntfW9a : Notification := ⟨"n1", none, some "HR", "t1", "m1", none, none, 3⟩

def ntfW9b : Notification := ⟨"n2", some "h1", none, "t2", "m2", none, none, 5⟩

def ntfW9c : Notification := ⟨"n3", some "zz", none, "t3", "m3", none, none, 9⟩

def dbW9 : DB := ⟨[hrX], [], [], [], [ntfW9a, ntfW9b, ntfW9c]⟩

/-! Helper lemmas about the list-level store operations. -/

theorem find?_eq_some_split (p : α → Bool) (l : List α) (a : α)
    (h : l.find? p = some a) :
    ∃ pre post, l = pre ++ a :: post ∧ (∀ x ∈ pre, p x = false) ∧ p a = true := by
  induction l with
  | nil => simp at h
  | cons x xs ih =>
    cases hx : p x with
    | true =>
      rw [List.find?_cons_of_pos _ hx] at h
      obtain rfl : x = a := by simpa using h
      exact ⟨[], xs, rfl, by simp, hx⟩
    | false =>
      rw [List.find?_cons_of_neg _ (by simp [hx])] at h
      obtain ⟨pre, post, rfl, hpre, hpa⟩ := ih h
      exact ⟨x :: pre, post, rfl, by
        intro y hy
        rcases List.mem_cons.mp hy with rfl | hy
        · exact hx
        · exact hpre y hy, hpa⟩

theorem updateFirst_append_cons (p : α → Bool) (f : α → α) (pre post : List α) (a : α)
    (hpre : ∀ x ∈ pre, p x = false) (ha : p a = true) :
    updateFirst p f (pre ++ a :: post) = pre ++ f a :: post := by
  induction pre with
  | nil => simp [updateFirst, ha]
  | cons x xs ih =>
    have hx : p x = false := hpre x (by simp)
    simp only [List.cons_append, updateFirst, hx]
    simp only [Bool.false_eq_true, if_false, List.cons.injEq, true_and]
    exact ih (fun y hy => hpre y (by simp [hy]))

theorem updateFirst_no_match (p : α → Bool) (f : α → α) (l : List α)
    (h : ∀ x ∈ l, p x = false) : updateFirst p f l = l := by
  induction l with
  | nil => rfl
  | cons x xs ih =>
    have hx : p x = false := h x (by simp)
    simp only [updateFirst, hx, Bool.false_eq_true, if_false, List.cons.injEq, true_and]
    exact ih (fun y hy => h y (by simp [hy]))

/-- C4 counterexample: the claim says every mutating operation on Department or
Employee requires role HR and that department listing refuses guests; but a Manager
(not HR) successfully performs the mutating employee update, and a guest with no
credential is served the department listing. -/
theorem update_employee_manager_allowed :
    isOk (update_employee dbC4 "m1" ⟨none, none, some "Lead", none⟩ (some mgrX)) = true ∧
    mgrX.role ≠ "HR" ∧
    isOk (list_departments dbC4 none) = true := by
  refine ⟨rfl, by decide, rfl⟩

/-- C4 (amended): create operations on Department and Employee and employee deletion
require role HR, employee update requires HR or Manager, employee listing requires
HR or Manager, and department listing performs no caller check at the handler, so
both guests and any authenticated caller are served; each refused request fails with
status 403. -/
theorem access_control_roles (db : DB) (u : UserAccount) (dep : DepartmentCreate)
    (ep : EmployeeCreate) (eu : EmployeeUpdate) (uid depId uidNew eidNew : DocId) :
    statusOf (create_department db dep (some u) depId) =
      (if u.role == "HR" then 200 else 403) ∧
    statusOf (create_department db dep none depId) = 403 ∧
    statusOf (create_employee db ep (some u) uidNew eidNew) =
      (if u.role == "HR" then
        (if (db.useraccount.find? (fun a => a.email == ep.email)).isSome then 400 else 200)
       else 403) ∧
    statusOf (create_employee db ep none uidNew eidNew) = 403 ∧
    statusOf (update_employee db uid eu (some u)) =
      (if u.role == "HR" || u.role == "Manager" then 200 else 403) ∧
    statusOf (update_employee db uid eu none) = 403 ∧
    statusOf (delete_employee db uid (some u)) = (if u.role == "HR" then 200 else 403) ∧
    statusOf (delete_employee db uid none) = 403 ∧
    statusOf (list_employees db (some u)) =
      (if u.role == "HR" || u.role == "Manager" then 200 else 403) ∧
    statusOf (list_employees db none) = 403 ∧
    statusOf (list_departments db (some u)) = 200 ∧
    statusOf (list_departments db none) = 200 := by
  refine ⟨?_, rfl, ?_, rfl, ?_, rfl, ?_, rfl, ?_, rfl, rfl, rfl⟩
  · by_cases h : u.role = "HR" <;> simp [create_department, statusOf, h]
  · by_cases h : u.role = "HR"
    · cases hf : db.useraccount.find? (fun a => a.email == ep.email) <;>
        simp [create_employee, statusOf, h, hf]
    · simp [create_employee, statusOf, h]
  · by_cases h1 : u.role = "HR" <;> by_cases h2 : u.role = "Manager" <;>
      simp [update_employee, statusOf, h1, h2]
  · by_cases h : u.role = "HR" <;> simp [delete_employee, statusOf, h]
  · by_cases h1 : u.role = "HR" <;> by_cases h2 : u.role = "Manager" <;>
      simp [list_employees, statusOf, h1, h2]

/-- C5 counterexample: the claim says a guest calling POST /departments gets 401;
the handler raises 403 for the guest. -/
theorem guest_create_department_403 :
    statusOf (create_department emptyDB ⟨"Eng", none, none⟩ none "d9") = 403 ∧
    statusOf (create_department emptyDB ⟨"Eng", none, none⟩ none "d9") ≠ 401 := by
  refine ⟨rfl, by decide⟩

/-- C5 (amended): the two failure kinds are conflated at the handler level: each
handler enforces its role gate with a single check and one fixed status code for
both a missing caller and a disallowed role — 403 for department creation and the
leave action, 401 for leave submission; only credential resolution distinguishes
them (no credential resolves to a guest, a presented but unresolvable credential
fails with 401). -/
theorem role_gate_single_code (db : DB) (u : UserAccount) (dep : DepartmentCreate)
    (lc : LeaveCreate) (la : LeaveAction) (lid lrId n1 n2 n3 n4 depId : DocId)
    (now : Nat) (tok : String) :
    statusOf (create_department db dep none depId) = 403 ∧
    statusOf (create_department db dep (some u) depId) =
      (if u.role == "HR" then 200 else 403) ∧
    statusOf (submit_leave db lc none lrId n1 n2 now) = 401 ∧
    statusOf (submit_leave db lc (some u) lrId n1 n2 now) =
      (if u.role == "Employee" || u.role == "Manager" || u.role == "HR" then 200
       else 401) ∧
    statusOf (act_on_leave db lid la none n3 n4 now) = 403 ∧
    statusOf (act_on_leave db lid la (some u) n3 n4 now) =
      (if u.role == "Manager" || u.role == "HR" then
        (if (db.leaverequest.find? (fun r => r.id == lid)).isSome then 200 else 404)
       else 403) ∧
    get_current_user db none = Except.ok none ∧
    statusOf (get_current_user db (some tok)) =
      (if (db.useraccount.find? (fun x => x.id == tok)).isSome then 200 else 401) := by
  refine ⟨rfl, ?_, rfl, ?_, rfl, ?_, rfl, ?_⟩
  · by_cases h : u.role = "HR" <;> simp [create_department, statusOf, h]
  · by_cases h1 : u.role = "Employee" <;> by_cases h2 : u.role = "Manager" <;>
      by_cases h3 : u.role = "HR" <;> simp [submit_leave, statusOf, h1, h2, h3]
  · by_cases h1 : u.role = "Manager" <;> by_cases h2 : u.role = "HR" <;>
      cases hf : db.leaverequest.find? (fun r => r.id == lid) <;>
        simp [act_on_leave, statusOf, h1, h2, hf]
  · cases hf : db.useraccount.find? (fun x => x.id == tok) <;>
      simp [get_current_user, statusOf, hf]

/-- C3 counterexample: with the status query parameter present but equal to the
empty string, the HR listing returns a request whose status is not the empty
string, so the result is not narrowed to requests whose status equals the
parameter exactly. -/
theorem list_leaves_empty_status_unfiltered :
    list_leaves dbC3 (some "") (some hrX) = Except.ok [lrC3] ∧ lrC3.status ≠ "" := by
  refine ⟨rfl, by decide⟩

/-- C3 (amended): for every authenticated caller, GET /leaves returns exactly the
requests scoped by role (Employee: own submissions; Manager: requests whose
resolved approving-manager reference equals the caller; any other role, in
particular HR: all requests), and the status parameter narrows the result by
exact match only when it is present and non-empty; an empty status value applies
no narrowing. -/
theorem list_leaves_scope (db : DB) (st : Option String) (u : UserAccount) :
    ∃ items, list_leaves db st (some u) = Except.ok items ∧
      ∀ r, r ∈ items ↔ (r ∈ db.leaverequest ∧
        (if u.role = "Employee" then r.employee_user_id = u.id
         else if u.role = "Manager" then r.manager_user_id = some u.id
         else True) ∧
        (∀ s, st = some s → s ≠ "" → r.status = s)) := by
  refine ⟨_, rfl, fun r => ?_⟩
  rw [List.mem_filter, Bool.and_eq_true]
  have hrole : ((if u.role == "Employee" then fun r : LeaveRequest => r.employee_user_id == u.id
      else if u.role == "Manager" then fun r : LeaveRequest => r.manager_user_id == some u.id
      else fun _ => true) r = true) ↔
      (if u.role = "Employee" then r.employee_user_id = u.id
       else if u.role = "Manager" then r.manager_user_id = some u.id
       else True) := by
    by_cases h1 : u.role = "Employee" <;> by_cases h2 : u.role = "Manager" <;>
      simp [h1, h2]
  have hstat : ((match st with
      | some s => if s != "" then fun r : LeaveRequest => r.status == s else fun _ => true
      | none => fun _ => true) r = true) ↔
      (∀ s, st = some s → s ≠ "" → r.status = s) := by
    cases st with
    | none => simp
    | some s =>
      by_cases hs : s = ""
      · subst hs; simp
      · simp [hs]
  exact and_congr_right (fun _ => and_congr hrole hstat)

/-- C7 counterexample: the pair ("a@x.com", "") is stored via the seed path, yet
logging in with that exact pair is rejected with 401 because the handler treats an
empty stored password as missing. -/
theorem login_empty_password_rejected :
    dbC7seed.useraccount = [⟨"id1", "a@x.com", "A", "Employee", "", true⟩] ∧
    login dbC7seed ⟨"a@x.com", ""⟩ = Except.error ⟨401, "Invalid credentials"⟩ := by
  refine ⟨rfl, rfl⟩

/-- C7 (amended): for every (email, password) pair with a non-empty password stored
via the seed path under a fresh email, POST /auth/login with that exact pair
returns a token equal to the account identifier, together with the role, full name
and user id of the account, and login with that email and any other password fails
with 401. -/
theorem login_after_seed (db : DB) (su : SeedUser) (newId : DocId)
    (hfresh : db.useraccount.find? (fun a => a.email == su.email) = none)
    (hpw : su.password ≠ "") :
    login (seed_user db su newId).1 ⟨su.email, su.password⟩ =
      Except.ok ⟨newId, su.role, su.full_name, newId⟩ ∧
    ∀ q, q ≠ su.password →
      login (seed_user db su newId).1 ⟨su.email, q⟩ =
        Except.error ⟨401, "Invalid credentials"⟩ := by
  have hdb : (seed_user db su newId).1 =
      { db with useraccount := db.useraccount ++
          [⟨newId, su.email, su.full_name, su.role, su.password, true⟩] } := by
    simp [seed_user, hfresh, create_document]
  have hfind : (db.useraccount ++
      [(⟨newId, su.email, su.full_name, su.role, su.password, true⟩ : UserAccount)]).find?
        (fun a => a.email == su.email) =
      some ⟨newId, su.email, su.full_name, su.role, su.password, true⟩ := by
    rw [List.find?_append, hfresh]
    simp
  constructor
  · rw [hdb]
    simp [login, hfind, hpw]
  · intro q hq
    rw [hdb]
    simp [login, hfind, hpw, hq]

/-- C7 witness: a seeded HR account with password "pw" logs in and receives its
identifier as token. -/
theorem login_after_seed_witness :
    login (seed_user emptyDB ⟨"b@x.com", "B", "HR", "pw"⟩ "u7").1 ⟨"b@x.com", "pw"⟩ =
      Except.ok ⟨"u7", "HR", "B", "u7"⟩ :=
  (login_after_seed emptyDB ⟨"b@x.com", "B", "HR", "pw"⟩ "u7" rfl (by decide)).1

/-- C8 counterexample: POST /employees with an email that already belongs to a
UserAccount fails with status 400 (BadRequest in the taxonomy of the spec), not
409 (Conflict). -/
theorem create_employee_duplicate_email_400 :
    create_employee dbC8 ⟨"e@x.com", "E2", "pw9", none, none, none, none⟩ (some hrX)
        "u9" "e9" =
      Except.error ⟨400, "Email already exists"⟩ ∧
    (400 : Nat) ≠ 409 := by
  refine ⟨rfl, by decide⟩

/-- C8 (amended): for an HR caller, POST /employees with an email that already
belongs to a UserAccount fails with BadRequest (400) — the check precedes every
write, so no record is created (an error leaves the state unchanged in this
model) — and with a fresh email it creates exactly one UserAccount (role
Employee, active) and exactly one Employee whose user reference equals the new
UserAccount identifier. -/
theorem create_employee_spec (db : DB) (ep : EmployeeCreate) (u : UserAccount)
    (uidNew eidNew : DocId) (hrole : u.role = "HR") :
    ((db.useraccount.find? (fun a => a.email == ep.email)).isSome = true →
      create_employee db ep (some u) uidNew eidNew =
        Except.error ⟨400, "Email already exists"⟩) ∧
    ((db.useraccount.find? (fun a => a.email == ep.email)).isSome = false →
      create_employee db ep (some u) uidNew eidNew =
        Except.ok
          ({ db with
              useraccount := db.useraccount ++
                [⟨uidNew, ep.email, ep.full_name, "Employee", ep.password, true⟩],
              employee := db.employee ++
                [⟨eidNew, uidNew, ep.joining_date, ep.department_id, ep.designation,
                  ep.manager_user_id⟩] }, uidNew, eidNew)) := by
  constructor
  · intro h
    obtain ⟨a, ha⟩ := Option.isSome_iff_exists.mp h
    simp [create_employee, hrole, ha]
  · intro h
    have hn : db.useraccount.find? (fun a => a.email == ep.email) = none := by
      cases hf : db.useraccount.find? (fun a => a.email == ep.email)
      · rfl
      · rw [hf] at h; simp at h
    simp [create_employee, hrole, hn, create_document]

/-- C8 witness: with a fresh email, exactly one UserAccount and one Employee are
appended, linked by the user reference "u9". -/
theorem create_employee_spec_witness :
    create_employee dbC8 ⟨"new@x.com", "N", "pw9", none, none, none, none⟩ (some hrX)
        "u9" "e9" =
      Except.ok
        ({ dbC8 with
            useraccount := dbC8.useraccount ++
              [⟨"u9", "new@x.com", "N", "Employee", "pw9", true⟩],
            employee := dbC8.employee ++
              [⟨"e9", "u9", none, none, none, none⟩] }, "u9", "e9") :=
  (create_employee_spec dbC8 ⟨"new@x.com", "N", "pw9", none, none, none, none⟩ hrX
    "u9" "e9" rfl).2 (by decide)

/-- C10 counterexample: an account whose stored password material (the empty
string) matches the supplied password, with is_active false; login nevertheless
fails with 401 because the handler treats an empty stored password as missing. -/
theorem login_empty_match_fails :
    uaC10.hashed_password = "" ∧ uaC10.is_active = false ∧
    login dbC10 ⟨"i@x.com", ""⟩ = Except.error ⟨401, "Invalid credentials"⟩ := by
  refine ⟨rfl, rfl, rfl⟩

/-- C10 (amended): POST /auth/login never consults is_active: for every stored
UserAccount whose non-empty stored password material equals the supplied password,
login succeeds and returns the account identifier as token whatever the value of
is_active — in particular when is_active is false, so deactivating an account does
not prevent sign-in. -/
theorem login_ignores_is_active (db : DB) (em pw : String) (a : UserAccount)
    (hfind : db.useraccount.find? (fun x => x.email == em) = some a)
    (hpw : a.hashed_password = pw) (hne : pw ≠ "") :
    login db ⟨em, pw⟩ = Except.ok ⟨a.id, a.role, a.full_name, a.id⟩ := by
  simp [login, hfind, hpw, hne]

/-- C10 witness: a deactivated account (is_active false) with stored password "pw"
still signs in successfully. -/
theorem login_ignores_is_active_witness :
    login dbC10b ⟨"j@x.com", "pw"⟩ = Except.ok ⟨"j1", "Manager", "J", "j1"⟩ :=
  login_ignores_is_active dbC10b "j@x.com" "pw" uaC10b rfl rfl (by decide)

/-- C6: for every PUT /employees/user_id by an HR or Manager caller with a partial
payload, only the non-null provided fields are applied: full_name, when provided,
is written to the UserAccount record matched by id (only that record, only that
field); every other provided field is written to the Employee record matched by
user_id; every absent field — and every other collection — keeps its prior value. -/
theorem update_employee_partial (db : DB) (uid : DocId) (p : EmployeeUpdate)
    (u : UserAccount) (hrole : u.role = "HR" ∨ u.role = "Manager") :
    ∃ db', update_employee db uid p (some u) = Except.ok db' ∧
      db'.department = db.department ∧
      db'.leaverequest = db.leaverequest ∧
      db'.notification = db.notification ∧
      (p.full_name = none → db'.useraccount = db.useraccount) ∧
      (∀ fn, p.full_name = some fn →
        (∀ x ∈ db.useraccount, (x.id == uid) = false) →
        db'.useraccount = db.useraccount) ∧
      (∀ fn pre a post, p.full_name = some fn →
        db.useraccount = pre ++ a :: post →
        (∀ x ∈ pre, (x.id == uid) = false) → (a.id == uid) = true →
        db'.useraccount = pre ++ { a with full_name := fn } :: post) ∧
      (p.department_id = none → p.designation = none → p.manager_user_id = none →
        db'.employee = db.employee) ∧
      ((p.department_id.isSome || p.designation.isSome ||
          p.manager_user_id.isSome) = true →
        (∀ x ∈ db.employee, (x.user_id == uid) = false) →
        db'.employee = db.employee) ∧
      (∀ pre e post, db.employee = pre ++ e :: post →
        (∀ x ∈ pre, (x.user_id == uid) = false) → (e.user_id == uid) = true →
        (p.department_id.isSome || p.designation.isSome ||
          p.manager_user_id.isSome) = true →
        db'.employee = pre ++
          { e with
            department_id :=
              match p.department_id with
              | some d => some d
              | none => e.department_id,
            designation :=
              match p.designation with
              | some d => some d
              | none => e.designation,
            manager_user_id :=
              match p.manager_user_id with
              | some m => some m
              | none => e.manager_user_id } :: post) := by
  have hgate : (!(u.role == "HR" || u.role == "Manager")) = false := by
    rcases hrole with h | h <;> simp [h]
  cases hfn : p.full_name with
  | none =>
    cases hrest : (p.department_id.isSome || p.designation.isSome ||
        p.manager_user_id.isSome) with
    | false =>
      refine ⟨db, ?_, rfl, rfl, rfl, fun _ => rfl, ?_, ?_, fun _ _ _ => rfl, ?_, ?_⟩
      · simp [update_employee, hgate, hfn, hrest]
      · intro fn h _
        simp [hfn] at h
      · intro fn pre a post h _ _ _
        simp [hfn] at h
      · intro h _
        simp [hrest] at h
      · intro pre e post _ _ _ h
        simp [hrest] at h
    | true =>
      refine ⟨{ db with
          employee :=
            updateFirst (fun e => e.user_id == uid)
              (fun e =>
                { e with
                  department_id :=
                    match p.department_id with
                    | some d => some d
                    | none => e.department_id,
                  designation :=
                    match p.designation with
                    | some d => some d
                    | none => e.designation,
                  manager_user_id :=
                    match p.manager_user_id with
                    | some m => some m
                    | none => e.manager_user_id })
              db.employee },
        ?_, rfl, rfl, rfl, fun _ => rfl, ?_, ?_, ?_, ?_, ?_⟩
      · simp [update_employee, hgate, hfn, hrest]
      · intro fn h _
        simp [hfn] at h
      · intro fn pre a post h _ _ _
        simp [hfn] at h
      · intro h1 h2 h3
        simp [h1, h2, h3] at hrest
      · intro _ hnone
        exact updateFirst_no_match _ _ _ hnone
      · intro pre e post hsplit hpre he _
        show updateFirst _ _ db.employee = _
        rw [hsplit]
        exact updateFirst_append_cons _ _ _ _ _ hpre he
  | some fn0 =>
    cases hrest : (p.department_id.isSome || p.designation.isSome ||
        p.manager_user_id.isSome) with
    | false =>
      refine ⟨{ db with
          useraccount :=
            updateFirst (fun a => a.id == uid) (fun a => { a with full_name := fn0 })
              db.useraccount },
        ?_, rfl, rfl, rfl, ?_, ?_, ?_, fun _ _ _ => rfl, ?_, ?_⟩
      · simp [update_employee, hgate, hfn, hrest]
      · intro h
        simp [hfn] at h
      · intro fn h hnone
        obtain rfl : fn0 = fn := Option.some.inj h
        exact updateFirst_no_match _ _ _ hnone
      · intro fn pre a post h hsplit hpre ha
        obtain rfl : fn0 = fn := Option.some.inj h
        show updateFirst _ _ db.useraccount = _
        rw [hsplit]
        exact updateFirst_append_cons _ _ _ _ _ hpre ha
      · intro h _
        simp [hrest] at h
      · intro pre e post _ _ _ h
        simp [hrest] at h
    | true =>
      refine ⟨{ db with
          useraccount :=
            updateFirst (fun a => a.id == uid) (fun a => { a with full_name := fn0 })
              db.useraccount,
          employee :=
            updateFirst (fun e => e.user_id == uid)
              (fun e =>
                { e with
                  department_id :=
                    match p.department_id with
                    | some d => some d
                    | none => e.department_id,
                  designation :=
                    match p.designation with
                    | some d => some d
                    | none => e.designation,
                  manager_user_id :=
                    match p.manager_user_id with
                    | some m => some m
                    | none => e.manager_user_id })
              db.employee },
        ?_, rfl, rfl, rfl, ?_, ?_, ?_, ?_, ?_, ?_⟩
      · simp [update_employee, hgate, hfn, hrest]
      · intro h
        simp [hfn] at h
      · intro fn h hnone
        obtain rfl : fn0 = fn := Option.some.inj h
        exact updateFirst_no_match _ _ _ hnone
      · intro fn pre a post h hsplit hpre ha
        obtain rfl : fn0 = fn := Option.some.inj h
        show updateFirst _ _ db.useraccount = _
        rw [hsplit]
        exact updateFirst_append_cons _ _ _ _ _ hpre ha
      · intro h1 h2 h3
        simp [h1, h2, h3] at hrest
      · intro _ hnone
        exact updateFirst_no_match _ _ _ hnone
      · intro pre e post hsplit hpre he _
        show updateFirst _ _ db.employee = _
        rw [hsplit]
        exact updateFirst_append_cons _ _ _ _ _ hpre he

/-- C6 witness: a payload providing only designation changes only that field of
the target employee; department_id, manager_user_id, joining_date and the user
accounts (in particular full_name) are unchanged. -/
theorem update_employee_partial_witness :
    ∃ db', update_employee dbC6 "e1" ⟨none, none, some "Lead", none⟩ (some hrX) =
        Except.ok db' ∧
      db'.department = dbC6.department ∧
      db'.leaverequest = dbC6.leaverequest ∧
      db'.notification = dbC6.notification ∧
      ((⟨none, none, some "Lead", none⟩ : EmployeeUpdate).full_name = none →
        db'.useraccount = dbC6.useraccount) ∧
      (∀ fn, (⟨none, none, some "Lead", none⟩ : EmployeeUpdate).full_name = some fn →
        (∀ x ∈ dbC6.useraccount, (x.id == "e1") = false) →
        db'.useraccount = dbC6.useraccount) ∧
      (∀ fn pre a post,
        (⟨none, none, some "Lead", none⟩ : EmployeeUpdate).full_name = some fn →
        dbC6.useraccount = pre ++ a :: post →
        (∀ x ∈ pre, (x.id == "e1") = false) → (a.id == "e1") = true →
        db'.useraccount = pre ++ { a with full_name := fn } :: post) ∧
      ((⟨none, none, some "Lead", none⟩ : EmployeeUpdate).department_id = none →
        (⟨none, none, some "Lead", none⟩ : EmployeeUpdate).designation = none →
        (⟨none, none, some "Lead", none⟩ : EmployeeUpdate).manager_user_id = none →
        db'.employee = dbC6.employee) ∧
      (((⟨none, none, some "Lead", none⟩ : EmployeeUpdate).department_id.isSome ||
          (⟨none, none, some "Lead", none⟩ : EmployeeUpdate).designation.isSome ||
          (⟨none, none, some "Lead", none⟩ : EmployeeUpdate).manager_user_id.isSome) = true →
        (∀ x ∈ dbC6.employee, (x.user_id == "e1") = false) →
        db'.employee = dbC6.employee) ∧
      (∀ pre e post, dbC6.employee = pre ++ e :: post →
        (∀ x ∈ pre, (x.user_id == "e1") = false) → (e.user_id == "e1") = true →
        ((⟨none, none, some "Lead", none⟩ : EmployeeUpdate).department_id.isSome ||
          (⟨none, none, some "Lead", none⟩ : EmployeeUpdate).designation.isSome ||
          (⟨none, none, some "Lead", none⟩ : EmployeeUpdate).manager_user_id.isSome) = true →
        db'.employee = pre ++
          { e with
            department_id :=
              match (⟨none, none, some "Lead", none⟩ : EmployeeUpdate).department_id with
              | some d => some d
              | none => e.department_id,
            designation :=
              match (⟨none, none, some "Lead", none⟩ : EmployeeUpdate).designation with
              | some d => some d
              | none => e.designation,
            manager_user_id :=
              match (⟨none, none, some "Lead", none⟩ : EmployeeUpdate).manager_user_id with
              | some m => some m
              | none => e.manager_user_id } :: post) :=
  update_employee_partial dbC6 "e1" ⟨none, none, some "Lead", none⟩ hrX (Or.inl rfl)

/-- C1: for every authenticated submitter with role Employee, Manager or HR,
POST /leaves persists a leave request with status Pending whose approving manager
is resolved by precedence — the manager_user_id of the submitter Employee record
when set (truthy), else the manager_id of the department referenced by its
department_id, else null — then always appends one broadcast Notification with
audience HR, and appends a direct Notification to the resolved manager exactly
when a manager was resolved: two notifications with a manager, one without. -/
theorem submit_leave_spec (db : DB) (p : LeaveCreate) (u : UserAccount)
    (lrId nHR nMgr : DocId) (now : Nat)
    (hrole : u.role = "Employee" ∨ u.role = "Manager" ∨ u.role = "HR") :
    ∃ db' lr,
      submit_leave db p (some u) lrId nHR nMgr now = Except.ok (db', lrId) ∧
      db'.useraccount = db.useraccount ∧
      db'.department = db.department ∧
      db'.employee = db.employee ∧
      db'.leaverequest = db.leaverequest ++ [lr] ∧
      lr.status = "Pending" ∧
      lr.employee_user_id = u.id ∧
      lr.start_date = p.start_date ∧
      lr.end_date = p.end_date ∧
      lr.type = p.type ∧
      lr.reason = p.reason ∧
      lr.manager_user_id = resolveManager db u.id ∧
      (db.employee.find? (fun e => e.user_id == u.id) = none →
        resolveManager db u.id = none) ∧
      (∀ emp, db.employee.find? (fun e => e.user_id == u.id) = some emp →
        truthyOpt emp.manager_user_id = true →
        resolveManager db u.id = emp.manager_user_id) ∧
      (∀ emp, db.employee.find? (fun e => e.user_id == u.id) = some emp →
        truthyOpt emp.manager_user_id = false →
        ∀ did, emp.department_id = some did → did ≠ "" →
        resolveManager db u.id =
          (match db.department.find? (fun d => d.id == did) with
           | some dep => dep.manager_id
           | none => none)) ∧
      (∀ emp, db.employee.find? (fun e => e.user_id == u.id) = some emp →
        truthyOpt emp.manager_user_id = false →
        truthyOpt emp.department_id = false →
        resolveManager db u.id = none) ∧
      (truthyOpt (resolveManager db u.id) = true →
        ∃ a b, db'.notification = db.notification ++ [a, b] ∧
          a.audience = some "HR" ∧ a.user_id = none ∧
          a.title = "New Leave Request" ∧ a.entity_id = some lrId ∧
          b.user_id = resolveManager db u.id ∧ b.audience = none ∧
          b.title = "Approval Needed" ∧ b.entity_id = some lrId) ∧
      (truthyOpt (resolveManager db u.id) = false →
        ∃ a, db'.notification = db.notification ++ [a] ∧
          a.audience = some "HR" ∧ a.user_id = none ∧
          a.title = "New Leave Request" ∧ a.entity_id = some lrId) := by
  have hgate :
      (!(u.role == "Employee" || u.role == "Manager" || u.role == "HR")) = false := by
    rcases hrole with h | h | h <;> simp [h]
  have hres1 : db.employee.find? (fun e => e.user_id == u.id) = none →
      resolveManager db u.id = none := by
    intro h
    simp [resolveManager, h]
  have hres2 : ∀ emp, db.employee.find? (fun e => e.user_id == u.id) = some emp →
      truthyOpt emp.manager_user_id = true →
      resolveManager db u.id = emp.manager_user_id := by
    intro emp h ht
    simp [resolveManager, h, ht]
  have hres3 : ∀ emp, db.employee.find? (fun e => e.user_id == u.id) = some emp →
      truthyOpt emp.manager_user_id = false →
      ∀ did, emp.department_id = some did → did ≠ "" →
      resolveManager db u.id =
        (match db.department.find? (fun d => d.id == did) with
         | some dep => dep.manager_id
         | none => none) := by
    intro emp h hf did hd hne
    have htd : truthyOpt (some did) = true := by simp [truthyOpt, hne]
    simp [resolveManager, h, hf, hd, htd]
  have hres4 : ∀ emp, db.employee.find? (fun e => e.user_id == u.id) = some emp →
      truthyOpt emp.manager_user_id = false →
      truthyOpt emp.department_id = false →
      resolveManager db u.id = none := by
    intro emp h hf hfd
    simp [resolveManager, h, hf, hfd]
  cases hm : truthyOpt (resolveManager db u.id) with
  | true =>
    refine ⟨{ db with
        leaverequest := db.leaverequest ++
          [⟨lrId, u.id, resolveManager db u.id, p.start_date, p.end_date, p.type,
            p.reason, "Pending", none, none⟩],
        notification := db.notification ++
          [⟨nHR, none, some "HR", "New Leave Request",
            u.full_name ++ " submitted a leave.", some "LeaveRequest", some lrId, now⟩,
           ⟨nMgr, resolveManager db u.id, none, "Approval Needed",
            "Leave request pending approval.", some "LeaveRequest", some lrId, now⟩] },
      ⟨lrId, u.id, resolveManager db u.id, p.start_date, p.end_date, p.type,
        p.reason, "Pending", none, none⟩,
      ?_, rfl, rfl, rfl, rfl, rfl, rfl, rfl, rfl, rfl, rfl, rfl,
      hres1, hres2, hres3, hres4, ?_, ?_⟩
    · simp [submit_leave, hgate, hm, create_document]
    · intro _
      exact ⟨_, _, rfl, rfl, rfl, rfl, rfl, rfl, rfl, rfl, rfl⟩
    · intro h
      simp at h
  | false =>
    refine ⟨{ db with
        leaverequest := db.leaverequest ++
          [⟨lrId, u.id, resolveManager db u.id, p.start_date, p.end_date, p.type,
            p.reason, "Pending", none, none⟩],
        notification := db.notification ++
          [⟨nHR, none, some "HR", "New Leave Request",
            u.full_name ++ " submitted a leave.", some "LeaveRequest", some lrId, now⟩] },
      ⟨lrId, u.id, resolveManager db u.id, p.start_date, p.end_date, p.type,
        p.reason, "Pending", none, none⟩,
      ?_, rfl, rfl, rfl, rfl, rfl, rfl, rfl, rfl, rfl, rfl, rfl,
      hres1, hres2, hres3, hres4, ?_, ?_⟩
    · simp [submit_leave, hgate, hm, create_document]
    · intro h
      simp at h
    · intro _
      exact ⟨_, rfl, rfl, rfl, rfl, rfl⟩

/-- C1 witness: an Employee whose profile names the direct manager m1 submits a
leave; the persisted request is Pending with manager m1, and exactly two
notifications are appended — the HR broadcast and the direct one to m1. -/
theorem submit_leave_spec_witness :
    ∃ (db' : DB) (lr : LeaveRequest),
      submit_leave dbW1 ⟨"2024-01-01", "2024-01-03", "Sick", none⟩ (some empX)
          "lr1" "n1" "n2" 7 = Except.ok (db', "lr1") ∧
      lr.status = "Pending" ∧
      lr.manager_user_id = some "m1" ∧
      ∃ a b, db'.notification = dbW1.notification ++ [a, b] ∧
        a.audience = some "HR" ∧ b.user_id = some "m1" := by
  obtain ⟨db', lr, heq, _, _, _, _, hst, _, _, _, _, _, hmgr, _, _, _, _, hT, _⟩ :=
    submit_leave_spec dbW1 ⟨"2024-01-01", "2024-01-03", "Sick", none⟩ empX
      "lr1" "n1" "n2" 7 (Or.inl rfl)
  obtain ⟨a, b, hn, ha1, _, _, _, hb1, _, _, _⟩ := hT (by decide)
  refine ⟨db', lr, heq, hst, ?_, a, b, hn, ha1, ?_⟩
  · rw [hmgr]
    rfl
  · rw [hb1]
    rfl

/-- C2: for every caller with role Manager or HR, POST /leaves/leave_id/action
fails with 404 when no leave request has that id; otherwise — whatever the current
status, which is never checked, so an already-decided request is overwritten — it
rewrites the record in one write with the new status (Approve maps to Approved,
anything else to Rejected), the optional comment and the update timestamp, leaving
every other field unchanged, and appends exactly two Notifications: one directed at
the original submitter with the decision in the title and the comment (or the empty
string) as message, and one broadcast to audience HR. -/
theorem act_on_leave_spec (db : DB) (lid : DocId) (p : LeaveAction) (u : UserAccount)
    (nEmp nHR : DocId) (now : Nat) (hrole : u.role = "Manager" ∨ u.role = "HR") :
    (db.leaverequest.find? (fun r => r.id == lid) = none →
      act_on_leave db lid p (some u) nEmp nHR now =
        Except.error ⟨404, "Leave not found"⟩) ∧
    (∀ lr, db.leaverequest.find? (fun r => r.id == lid) = some lr →
      ∃ (db' : DB) (pre post : List LeaveRequest) (lr' : LeaveRequest)
        (a b : Notification),
        act_on_leave db lid p (some u) nEmp nHR now = Except.ok db' ∧
        db.leaverequest = pre ++ lr :: post ∧
        db'.leaverequest = pre ++ lr' :: post ∧
        db'.useraccount = db.useraccount ∧
        db'.department = db.department ∧
        db'.employee = db.employee ∧
        lr'.status = (if p.action == "Approve" then "Approved" else "Rejected") ∧
        lr'.manager_comment = p.comment ∧
        lr'.updated_at = some now ∧
        lr'.id = lr.id ∧
        lr'.employee_user_id = lr.employee_user_id ∧
        lr'.manager_user_id = lr.manager_user_id ∧
        lr'.start_date = lr.start_date ∧
        lr'.end_date = lr.end_date ∧
        lr'.type = lr.type ∧
        lr'.reason = lr.reason ∧
        db'.notification = db.notification ++ [a, b] ∧
        a.user_id = some lr.employee_user_id ∧
        a.audience = none ∧
        a.title = "Leave " ++ (if p.action == "Approve" then "Approved" else "Rejected") ∧
        a.message = p.comment.getD "" ∧
        b.user_id = none ∧
        b.audience = some "HR" ∧
        b.title = "Leave " ++ (if p.action == "Approve" then "Approved" else "Rejected")) := by
  have hgate : (!(u.role == "Manager" || u.role == "HR")) = false := by
    rcases hrole with h | h <;> simp [h]
  constructor
  · intro h
    simp [act_on_leave, hgate, h]
  · intro lr hfind
    obtain ⟨pre, post, hsplit, hpre, hp⟩ := find?_eq_some_split _ _ _ hfind
    have hup := updateFirst_append_cons (fun r : LeaveRequest => r.id == lid)
      (fun r =>
        { r with
          status := (if p.action == "Approve" then "Approved" else "Rejected"),
          manager_comment := p.comment, updated_at := some now })
      pre post lr hpre hp
    refine ⟨{ db with
        leaverequest := pre ++
          { lr with
            status := (if p.action == "Approve" then "Approved" else "Rejected"),
            manager_comment := p.comment, updated_at := some now } :: post,
        notification := db.notification ++
          [⟨nEmp, some lr.employee_user_id, none,
            "Leave " ++ (if p.action == "Approve" then "Approved" else "Rejected"),
            p.comment.getD "", some "LeaveRequest", some lid, now⟩,
           ⟨nHR, none, some "HR",
            "Leave " ++ (if p.action == "Approve" then "Approved" else "Rejected"),
            "A leave was " ++
              (if p.action == "Approve" then "Approved" else "Rejected").toLower ++ ".",
            some "LeaveRequest", some lid, now⟩] },
      pre, post,
      { lr with
        status := (if p.action == "Approve" then "Approved" else "Rejected"),
        manager_comment := p.comment, updated_at := some now },
      ⟨nEmp, some lr.employee_user_id, none,
        "Leave " ++ (if p.action == "Approve" then "Approved" else "Rejected"),
        p.comment.getD "", some "LeaveRequest", some lid, now⟩,
      ⟨nHR, none, some "HR",
        "Leave " ++ (if p.action == "Approve" then "Approved" else "Rejected"),
        "A leave was " ++
          (if p.action == "Approve" then "Approved" else "Rejected").toLower ++ ".",
        some "LeaveRequest", some lid, now⟩,
      ?_, hsplit, rfl, rfl, rfl, rfl, rfl, rfl, rfl, rfl, rfl, rfl, rfl, rfl, rfl,
      rfl, rfl, rfl, rfl, rfl, rfl, rfl, rfl, rfl⟩
    rw [show act_on_leave db lid p (some u) nEmp nHR now = Except.ok
        { db with
          leaverequest :=
            updateFirst (fun r => r.id == lid)
              (fun r =>
                { r with
                  status := (if p.action == "Approve" then "Approved" else "Rejected"),
                  manager_comment := p.comment, updated_at := some now })
              db.leaverequest,
          notification := db.notification ++
            [⟨nEmp, some lr.employee_user_id, none,
              "Leave " ++ (if p.action == "Approve" then "Approved" else "Rejected"),
              p.comment.getD "", some "LeaveRequest", some lid, now⟩,
             ⟨nHR, none, some "HR",
              "Leave " ++ (if p.action == "Approve" then "Approved" else "Rejected"),
              "A leave was " ++
                (if p.action == "Approve" then "Approved" else "Rejected").toLower ++ ".",
              some "LeaveRequest", some lid, now⟩] } from by
      simp [act_on_leave, hgate, hfind, create_document]
      cases p.comment with
      | none => rfl
      | some c =>
        by_cases h0 : c = ""
        · subst h0
          rfl
        · simp [h0]]
    rw [hsplit, hup]

/-- C2 witness: a Manager rejects an already-Approved request: the action succeeds,
the status is overwritten to Rejected, and two notifications are appended (one to
the submitter e1, one broadcast to HR). -/
theorem act_on_leave_spec_witness :
    ∃ (db' : DB) (pre post : List LeaveRequest) (lr' : LeaveRequest)
      (a b : Notification),
      act_on_leave dbW2 "lr1" ⟨"Reject", some "no"⟩ (some mgrX) "n3" "n4" 9 =
        Except.ok db' ∧
      dbW2.leaverequest = pre ++ lrW2 :: post ∧
      db'.leaverequest = pre ++ lr' :: post ∧
      lr'.status = "Rejected" ∧
      db'.notification = dbW2.notification ++ [a, b] ∧
      a.user_id = some "e1" ∧
      b.audience = some "HR" := by
  obtain ⟨db', pre, post, lr', a, b, h1, h2, h3, _, _, _, h7, _, _, _, _, _, _, _,
      _, _, h17, h18, _, _, _, _, h23, _⟩ :=
    (act_on_leave_spec dbW2 "lr1" ⟨"Reject", some "no"⟩ mgrX "n3" "n4" 9
      (Or.inl rfl)).2 lrW2 rfl
  exact ⟨db', pre, post, lr', a, b, h1, h2, h3, h7, h17, h18, h23⟩

/-- C9: for every authenticated caller (role HR, Manager or Employee), GET
/notifications returns at most 50 records, each of which is a stored notification
whose direct recipient equals the caller id or whose audience equals the caller
role, ordered newest-first by creation timestamp; and whenever at most 50 stored
records match, the result contains every matching stored notification. -/
theorem my_notifications_spec (db : DB) (u : UserAccount)
    (hrole : u.role = "HR" ∨ u.role = "Manager" ∨ u.role = "Employee") :
    ∃ items, my_notifications db (some u) = Except.ok items ∧
      items.length ≤ 50 ∧
      (∀ n ∈ items, n ∈ db.notification ∧
        (n.user_id = some u.id ∨ n.audience = some u.role)) ∧
      items.Sorted ntfNewer ∧
      ((db.notification.filter (matchesCaller u)).length ≤ 50 →
        ∀ n ∈ db.notification, (n.user_id = some u.id ∨ n.audience = some u.role) →
          n ∈ items) := by
  have hne : u.role ≠ "" := by rcases hrole with h | h | h <;> simp [h]
  have hmc : ∀ n : Notification, matchesCaller u n = true ↔
      (n.user_id = some u.id ∨ n.audience = some u.role) := by
    intro n
    simp [matchesCaller, hne]
  refine ⟨_, rfl, ?_, ?_, ?_, ?_⟩
  · exact List.length_take_le _ _
  · intro n hn
    have h1 : n ∈ (db.notification.filter (matchesCaller u)).insertionSort ntfNewer :=
      List.take_subset _ _ hn
    have h2 : n ∈ db.notification.filter (matchesCaller u) :=
      (List.perm_insertionSort ntfNewer _).subset h1
    have h3 := List.mem_filter.mp h2
    exact ⟨h3.1, (hmc n).mp h3.2⟩
  · exact List.Pairwise.sublist (List.take_sublist _ _)
      (List.sorted_insertionSort ntfNewer _)
  · intro hlen n hn hcond
    have hmem : n ∈ db.notification.filter (matchesCaller u) :=
      List.mem_filter.mpr ⟨hn, (hmc n).mpr hcond⟩
    have hslen :
        ((db.notification.filter (matchesCaller u)).insertionSort ntfNewer).length ≤ 50 := by
      rw [(List.perm_insertionSort ntfNewer _).length_eq]
      exact hlen
    rw [List.take_of_length_le hslen]
    exact ((List.perm_insertionSort ntfNewer _).mem_iff).mpr hmem

/-- C9 witness: the HR caller h1 over a store with an HR broadcast, a direct
notification to h1 and a direct notification to a third user. -/
theorem my_notifications_spec_witness :
    ∃ items, my_notifications dbW9 (some hrX) = Except.ok items ∧
      items.length ≤ 50 ∧
      (∀ n ∈ items, n ∈ dbW9.notification ∧
        (n.user_id = some hrX.id ∨ n.audience = some hrX.role)) ∧
      items.Sorted ntfNewer ∧
      ((dbW9.notification.filter (matchesCaller hrX)).length ≤ 50 →
        ∀ n ∈ dbW9.notification,
          (n.user_id = some hrX.id ∨ n.audience = some hrX.role) → n ∈ items) :=
  my_notifications_spec dbW9 hrX (Or.inl rfl)

end HRMS
